import Mathlib

/-!
Verification of the Battlezone simulation core: a shallow embedding of the
vector utilities, physics engine, collision library and entity state machines,
with theorems checking the specified behaviour. JS numbers are modelled as
real numbers (rationals where the code uses only field operations and
comparisons, so that concrete instances can be decided); JS `x || d` default
reads are modelled by `jsOr`; the sampled `Math.random()` values consumed by a
function are passed to it as explicit arguments.
-/

open Real

open scoped Classical

/-- A JS 3-component vector [x, y, z]. -/
structure Vec3 (R : Type) where
  x : R
  y : R
  z : R
deriving DecidableEq, Repr

/-- JS `v || d`: the default `d` replaces a falsy (0 / undefined) field read. -/
noncomputable def jsOr (v d : ℝ) : ℝ :=
  if v = 0 then d else v

/-- Utils.clamp: Math.max(min, Math.min(max, value)). -/
noncomputable def Utils.clamp (value lo hi : ℝ) : ℝ :=
  max lo (min hi value)

/-- Utils.lerp: a + (b - a) * t. -/
def Utils.lerp (a b t : ℝ) : ℝ :=
  a + (b - a) * t

/-- Utils.random(min, max) returns Math.random() * (max - min) + min; the
Math.random() sample `r` is an explicit argument. -/
def Utils.random (r lo hi : ℝ) : ℝ :=
  r * (hi - lo) + lo

/-- Utils.angleToVector: [Math.sin(angle), 0, Math.cos(angle)]. -/
noncomputable def Utils.angleToVector (angle : ℝ) : Vec3 ℝ :=
  ⟨Real.sin angle, 0, Real.cos angle⟩

/-- First while loop of Utils.normalizeAngle: while (angle > PI) angle -= 2*PI. -/
noncomputable def Utils.normAngleDown (angle : ℝ) : ℝ :=
  if π < angle then Utils.normAngleDown (angle - 2 * π) else angle
termination_by Nat.ceil ((angle - π) / (2 * π))
decreasing_by
  have hπ : (0:ℝ) < 2 * π := by positivity
  have harg : (angle - 2 * π - π) / (2 * π) = (angle - π) / (2 * π) - 1 := by
    field_simp
    ring
  have hpos : 0 < (angle - π) / (2 * π) := div_pos (by linarith) hπ
  have h1 : 1 ≤ Nat.ceil ((angle - π) / (2 * π)) := Nat.ceil_pos.mpr hpos
  have h2 : Nat.ceil ((angle - π) / (2 * π) - 1) ≤ Nat.ceil ((angle - π) / (2 * π)) - 1 := by
    apply Nat.ceil_le.mpr
    have hc := Nat.le_ceil ((angle - π) / (2 * π))
    have : ((Nat.ceil ((angle - π) / (2 * π)) - 1 : ℕ) : ℝ)
        = (Nat.ceil ((angle - π) / (2 * π)) : ℝ) - 1 := by
      push_cast [Nat.cast_sub h1]
      ring
    rw [this]
    linarith
  calc Nat.ceil ((angle - 2 * π - π) / (2 * π))
      = Nat.ceil ((angle - π) / (2 * π) - 1) := by rw [harg]
    _ ≤ Nat.ceil ((angle - π) / (2 * π)) - 1 := h2
    _ < Nat.ceil ((angle - π) / (2 * π)) := Nat.sub_lt (Nat.ceil_pos.mpr hpos) one_pos

/-- Second while loop of Utils.normalizeAngle: while (angle < -PI) angle += 2*PI. -/
noncomputable def Utils.normAngleUp (angle : ℝ) : ℝ :=
  if angle < -π then Utils.normAngleUp (angle + 2 * π) else angle
termination_by Nat.ceil ((-π - angle) / (2 * π))
decreasing_by
  have hπ : (0:ℝ) < 2 * π := by positivity
  have harg : (-π - (angle + 2 * π)) / (2 * π) = (-π - angle) / (2 * π) - 1 := by
    field_simp
    ring
  have hpos : 0 < (-π - angle) / (2 * π) := div_pos (by linarith) hπ
  have h1 : 1 ≤ Nat.ceil ((-π - angle) / (2 * π)) := Nat.ceil_pos.mpr hpos
  have h2 : Nat.ceil ((-π - angle) / (2 * π) - 1) ≤ Nat.ceil ((-π - angle) / (2 * π)) - 1 := by
    apply Nat.ceil_le.mpr
    have hc := Nat.le_ceil ((-π - angle) / (2 * π))
    have : ((Nat.ceil ((-π - angle) / (2 * π)) - 1 : ℕ) : ℝ)
        = (Nat.ceil ((-π - angle) / (2 * π)) : ℝ) - 1 := by
      push_cast [Nat.cast_sub h1]
      ring
    rw [this]
    linarith
  calc Nat.ceil ((-π - (angle + 2 * π)) / (2 * π))
      = Nat.ceil ((-π - angle) / (2 * π) - 1) := by rw [harg]
    _ ≤ Nat.ceil ((-π - angle) / (2 * π)) - 1 := h2
    _ < Nat.ceil ((-π - angle) / (2 * π)) := Nat.sub_lt (Nat.ceil_pos.mpr hpos) one_pos

/-- Utils.normalizeAngle: repeatedly subtract 2π while above π, then repeatedly
add 2π while below -π. -/
noncomputable def Utils.normalizeAngle (angle : ℝ) : ℝ :=
  Utils.normAngleUp (Utils.normAngleDown angle)

/-- JS Math.atan2(y, x) for finite arguments (signed zero ignored). -/
noncomputable def Math.atan2 (y x : ℝ) : ℝ :=
  if 0 < x then Real.arctan (y / x)
  else if x < 0 then
    (if 0 ≤ y then Real.arctan (y / x) + π else Real.arctan (y / x) - π)
  else
    (if 0 < y then π / 2 else if y < 0 then -(π / 2) else 0)

/-- JS `v || d` over the rational embedding. -/
def jsOrQ (v d : ℚ) : ℚ :=
  if v = 0 then d else v

/-- Obstacle type: generation alternates cube and pyramid. -/
inductive ObstacleType where
  | cube
  | pyramid
deriving DecidableEq, Repr

/-- A terrain obstacle record (position, type, size); rotation and the visual
fields are not read by the collision tests. -/
structure Obstacle where
  position : Vec3 ℚ
  type : ObstacleType
  size : Vec3 ℚ
deriving DecidableEq, Repr

/-- An axis-aligned box, as the collision library builds it. -/
structure BoxQ where
  minX : ℚ
  maxX : ℚ
  minY : ℚ
  maxY : ℚ
  minZ : ℚ
  maxZ : ℚ
deriving DecidableEq, Repr

/-- Collision.pointVsCircle: squared planar distance against squared radius. -/
def Collision.pointVsCircle (px pz cx cz radius : ℚ) : Bool :=
  decide ((px - cx) * (px - cx) + (pz - cz) * (pz - cz) ≤ radius * radius)

/-- Collision.checkObstacleCollision: the first obstacle (if any) whose
type-dependent footprint box, inflated by the probe radius, contains the
position in the XZ plane. A pyramid's base spans [-size, +size] per axis, a
cube's spans [-size/2, +size/2]. -/
def Collision.checkObstacleCollision (position : Vec3 ℚ) (radius : ℚ)
    (obstacles : List Obstacle) : Option Obstacle :=
  obstacles.find? fun obstacle =>
    let sizeX := obstacle.size.x
    let sizeY := obstacle.size.y
    let sizeZ := obstacle.size.z
    let box : BoxQ :=
      if obstacle.type = ObstacleType.pyramid then
        ⟨obstacle.position.x - sizeX, obstacle.position.x + sizeX, 0, sizeY,
          obstacle.position.z - sizeZ, obstacle.position.z + sizeZ⟩
      else
        ⟨obstacle.position.x - sizeX / 2, obstacle.position.x + sizeX / 2, 0, sizeY,
          obstacle.position.z - sizeZ / 2, obstacle.position.z + sizeZ / 2⟩
    let inflated : BoxQ := { box with
      minX := box.minX - radius, maxX := box.maxX + radius,
      minZ := box.minZ - radius, maxZ := box.maxZ + radius }
    decide (inflated.minX ≤ position.x ∧ position.x ≤ inflated.maxX ∧
      inflated.minZ ≤ position.z ∧ position.z ≤ inflated.maxZ)

/-- A simulated entity as the projectile collision check reads it. -/
structure Entity where
  id : ℕ
  position : Vec3 ℚ
  collisionRadius : ℚ
  height : ℚ
  invulnerable : Bool
  alive : Bool
deriving DecidableEq, Repr

/-- A projectile as the collision check reads it. -/
structure ProjectileState where
  ownerId : ℕ
  position : Vec3 ℚ
deriving DecidableEq, Repr

/-- Collision.checkProjectileCollision: first entity that is not the excluded
owner, is not invulnerable, contains the projectile in its planar circle
(radius defaulting to 1.5) and its vertical range [y, y + height]. -/
def Collision.checkProjectileCollision (projectile : ProjectileState)
    (entities : List Entity) (excludeId : Option ℕ) : Option Entity :=
  entities.find? fun entity =>
    decide (¬ excludeId = some entity.id) &&
    !entity.invulnerable &&
    (let r := jsOrQ entity.collisionRadius 1.5
     Collision.pointVsCircle projectile.position.x projectile.position.z
       entity.position.x entity.position.z r) &&
    (let h := jsOrQ entity.height 2
     decide (entity.position.y ≤ projectile.position.y ∧
       projectile.position.y ≤ entity.position.y + h))

/-- EnemyManager.removeDeadEnemies keeps exactly the alive enemies. -/
def EnemyManager.removeDeadEnemies (enemies : List Entity) : List Entity :=
  enemies.filter (fun e => e.alive)

/-- ProjectileManager pool capacity. -/
def ProjectileManager.maxProjectiles : ℕ := 50

/-- ProjectileManager.createProjectile: shift the oldest projectile out when
the pool is at capacity, then push the new one. -/
def ProjectileManager.createProjectile {α : Type} (projectiles : List α) (p : α) : List α :=
  (if ProjectileManager.maxProjectiles ≤ projectiles.length then
    projectiles.drop 1 else projectiles) ++ [p]

/-- ParticleSystem pool capacity. -/
def ParticleSystem.maxParticles : ℕ := 500

/-- One iteration of the loop in ParticleSystem.emit: shift the oldest
particle out when at capacity, then push the new one. -/
def ParticleSystem.pushParticle {α : Type} (particles : List α) (p : α) : List α :=
  (if ParticleSystem.maxParticles ≤ particles.length then
    particles.drop 1 else particles) ++ [p]

/-- ParticleSystem.emit: insert each generated particle in turn. -/
def ParticleSystem.emit {α : Type} (particles : List α) (generated : List α) : List α :=
  generated.foldl ParticleSystem.pushParticle particles

/-- PhysicsEngine gravity constant. -/
def PhysicsEngine.gravity : ℝ := -9.8

/-- A projectile/missile as the physics integrators read it. -/
structure MissileState where
  position : Vec3 ℝ
  velocity : Vec3 ℝ
  rotation : ℝ
  speed : ℝ
  turnRate : ℝ

/-- A guided missile's (non-owning) target: position and alive flag. -/
structure TargetState where
  position : Vec3 ℝ
  alive : Bool

/-- PhysicsEngine.updateStraightProjectile: constant-velocity translation. -/
def PhysicsEngine.updateStraightProjectile (projectile : MissileState)
    (deltaTime : ℝ) : MissileState :=
  { projectile with position :=
      ⟨projectile.position.x + projectile.velocity.x * deltaTime,
        projectile.position.y + projectile.velocity.y * deltaTime,
        projectile.position.z + projectile.velocity.z * deltaTime⟩ }

/-- PhysicsEngine.updateGuidedMissile: with no target return unchanged; with a
dead target fly straight; otherwise steer the velocity direction toward the
target (aim 1.5 above its position) by lerp with factor min(1, turnRate·dt),
re-apply the speed, integrate, clamp altitude to 0.5, face the velocity. -/
noncomputable def PhysicsEngine.updateGuidedMissile (missile : MissileState)
    (target : Option TargetState) (deltaTime : ℝ) : MissileState :=
  match target with
  | none => missile
  | some tg =>
    if tg.alive = false then PhysicsEngine.updateStraightProjectile missile deltaTime
    else
      let turnRate := jsOr missile.turnRate 3.5
      let speed := jsOr missile.speed 30
      let tx := tg.position.x - missile.position.x
      let ty := tg.position.y + 1.5 - missile.position.y
      let tz := tg.position.z - missile.position.z
      let dist := Real.sqrt (tx * tx + ty * ty + tz * tz)
      let toTarget : Vec3 ℝ :=
        if 0.001 < dist then ⟨tx / dist, ty / dist, tz / dist⟩ else ⟨tx, ty, tz⟩
      let currentSpeed := Real.sqrt (missile.velocity.x * missile.velocity.x +
        missile.velocity.y * missile.velocity.y + missile.velocity.z * missile.velocity.z)
      let currentDir : Vec3 ℝ :=
        if 0.001 < currentSpeed then
          ⟨missile.velocity.x / currentSpeed, missile.velocity.y / currentSpeed,
            missile.velocity.z / currentSpeed⟩
        else missile.velocity
      let t := min 1 (turnRate * deltaTime)
      let newDir : Vec3 ℝ := ⟨Utils.lerp currentDir.x toTarget.x t,
        Utils.lerp currentDir.y toTarget.y t, Utils.lerp currentDir.z toTarget.z t⟩
      let newDirLen := Real.sqrt (newDir.x * newDir.x + newDir.y * newDir.y +
        newDir.z * newDir.z)
      let velocity : Vec3 ℝ :=
        if 0.001 < newDirLen then
          ⟨newDir.x / newDirLen * speed, newDir.y / newDirLen * speed,
            newDir.z / newDirLen * speed⟩
        else missile.velocity
      let pos : Vec3 ℝ := ⟨missile.position.x + velocity.x * deltaTime,
        missile.position.y + velocity.y * deltaTime,
        missile.position.z + velocity.z * deltaTime⟩
      let position := if pos.y < 0.5 then (⟨pos.x, 0.5, pos.z⟩ : Vec3 ℝ) else pos
      let velocity2 :=
        if pos.y < 0.5 ∧ velocity.y < 0 then (⟨velocity.x, 0, velocity.z⟩ : Vec3 ℝ)
        else velocity
      { missile with
        position := position
        velocity := velocity2
        rotation := Math.atan2 velocity2.x velocity2.z }

/-- Discriminant of the ballistic-range quadratic computed by
PhysicsEngine.calculateBallisticShot, named so the theorems can state the
branch condition. -/
noncomputable def PhysicsEngine.ballisticDiscriminant (origin target : Vec3 ℝ)
    (speed : ℝ) : ℝ :=
  let dx := target.x - origin.x
  let dy := target.y - origin.y
  let dz := target.z - origin.z
  let horizontalDist := Real.sqrt (dx * dx + dz * dz)
  let g := |PhysicsEngine.gravity|
  let v2 := speed * speed
  let v4 := v2 * v2
  v4 - g * (g * horizontalDist * horizontalDist + 2 * dy * v2)

/-- PhysicsEngine.calculateBallisticShot: if the range discriminant is
negative, shoot straight at the target with a +5 vertical bias; otherwise
launch at the low-trajectory angle atan2(v² - √disc, g·d). -/
noncomputable def PhysicsEngine.calculateBallisticShot (origin target : Vec3 ℝ)
    (speed : ℝ) : Vec3 ℝ :=
  let dx := target.x - origin.x
  let dy := target.y - origin.y
  let dz := target.z - origin.z
  let horizontalDist := Real.sqrt (dx * dx + dz * dz)
  let g := |PhysicsEngine.gravity|
  let v2 := speed * speed
  let discriminant := PhysicsEngine.ballisticDiscriminant origin target speed
  if discriminant < 0 then
    let len := Real.sqrt (dx * dx + dy * dy + dz * dz)
    ⟨dx / len * speed, dy / len * speed + 5, dz / len * speed⟩
  else
    let angle := Math.atan2 (v2 - Real.sqrt discriminant) (g * horizontalDist)
    let vHorizontal := speed * Real.cos angle
    let vVertical := speed * Real.sin angle
    ⟨dx / horizontalDist * vHorizontal, vVertical, dz / horizontalDist * vHorizontal⟩

/-- Division-checked variant of calculateBallisticShot: none exactly where the
executed branch divides by a zero denominator, which is where the JS original
writes non-finite (NaN/Infinity) components into the returned velocity. -/
noncomputable def PhysicsEngine.calculateBallisticShotChecked (origin target : Vec3 ℝ)
    (speed : ℝ) : Option (Vec3 ℝ) :=
  let dx := target.x - origin.x
  let dy := target.y - origin.y
  let dz := target.z - origin.z
  let horizontalDist := Real.sqrt (dx * dx + dz * dz)
  let g := |PhysicsEngine.gravity|
  let v2 := speed * speed
  let discriminant := PhysicsEngine.ballisticDiscriminant origin target speed
  if discriminant < 0 then
    let len := Real.sqrt (dx * dx + dy * dy + dz * dz)
    if len = 0 then none
    else some ⟨dx / len * speed, dy / len * speed + 5, dz / len * speed⟩
  else
    if horizontalDist = 0 then none
    else
      let angle := Math.atan2 (v2 - Real.sqrt discriminant) (g * horizontalDist)
      let vHorizontal := speed * Real.cos angle
      let vVertical := speed * Real.sin angle
      some ⟨dx / horizontalDist * vHorizontal, vVertical, dz / horizontalDist * vHorizontal⟩

/-- A tank as updateTankMovement reads it. -/
structure TankState where
  position : Vec3 ℝ
  velocity : Vec3 ℝ
  rotation : ℝ
  currentSpeed : ℝ

/-- Per-player input intent flags consumed by the movement code. -/
structure InputState where
  forward : Bool
  backward : Bool
  left : Bool
  right : Bool

/-- The movement configuration object passed to updateTankMovement. -/
structure MoveConfig where
  maxSpeed : ℝ
  acceleration : ℝ
  deceleration : ℝ
  turnSpeed : ℝ
  turnSpeedMoving : ℝ

/-- PhysicsEngine.updateTankMovement: ramp the forward-projected speed toward
the input's target speed, rotate (slower while moving), normalize the heading,
integrate the position, and record the new signed speed. -/
noncomputable def PhysicsEngine.updateTankMovement (tank : TankState)
    (input : InputState) (deltaTime : ℝ) (config : MoveConfig) : TankState :=
  let maxSpeed := jsOr config.maxSpeed 15
  let acceleration := jsOr config.acceleration 25
  let deceleration := jsOr config.deceleration 20
  let turnSpeed := jsOr config.turnSpeed 2.0
  let turnSpeedMoving := jsOr config.turnSpeedMoving 1.5
  let forward := Utils.angleToVector tank.rotation
  let currentSpeed := tank.velocity.x * forward.x + tank.velocity.z * forward.z
  let targetSpeed :=
    if input.backward then -maxSpeed * 0.5 else if input.forward then maxSpeed else 0
  let newSpeed :=
    if currentSpeed < targetSpeed then min targetSpeed (currentSpeed + acceleration * deltaTime)
    else if targetSpeed < currentSpeed then
      max targetSpeed (currentSpeed - deceleration * deltaTime)
    else if 0.1 < |currentSpeed| then
      (let sgn : ℝ := if 0 < currentSpeed then 1 else -1
       let decayed := currentSpeed - sgn * deceleration * 0.5 * deltaTime
       if sgn * decayed < 0 then 0 else decayed)
    else 0
  let velocity : Vec3 ℝ := ⟨forward.x * newSpeed, tank.velocity.y, forward.z * newSpeed⟩
  let effectiveTurnSpeed := if 0.5 < |newSpeed| then turnSpeedMoving else turnSpeed
  let rot1 := tank.rotation + (if input.left then effectiveTurnSpeed * deltaTime else 0)
  let rot2 := rot1 - (if input.right then effectiveTurnSpeed * deltaTime else 0)
  { position := ⟨tank.position.x + velocity.x * deltaTime, tank.position.y,
      tank.position.z + velocity.z * deltaTime⟩
    velocity := velocity
    rotation := Utils.normalizeAngle rot2
    currentSpeed := newSpeed }

/-- The player as the enemy AI and the UFO read it. -/
structure PlayerView where
  position : Vec3 ℝ
  alive : Bool

/-- A terrain mountain record (collision radius is 8 · scale). -/
structure Mountain where
  position : Vec3 ℝ
  scale : ℝ

/-- The terrain bounds rectangle. -/
structure Bounds where
  minX : ℝ
  maxX : ℝ
  minZ : ℝ
  maxZ : ℝ

/-- The terrain as the entity updates read it. -/
structure TerrainView where
  bounds : Bounds
  mountains : List Mountain

/-- Terrain.clampToBounds: clamp x and z into the margin-shrunk bounds. -/
noncomputable def Terrain.clampToBounds (bounds : Bounds) (position : Vec3 ℝ)
    (margin : ℝ) : Vec3 ℝ :=
  ⟨Utils.clamp position.x (bounds.minX + margin) (bounds.maxX - margin),
    position.y,
    Utils.clamp position.z (bounds.minZ + margin) (bounds.maxZ - margin)⟩

/-- The UFO's mutable state. -/
structure UFOState where
  position : Vec3 ℝ
  rotation : ℝ
  moveAngle : ℝ
  bobPhase : ℝ
  shootTimer : ℝ
  shootCooldown : ℝ
  speed : ℝ
  alive : Bool
  shouldShoot : Bool

/-- UFO.update: advance the shoot timer, rotate by 0.3·dt (never normalized),
drift on a slow circle, bob the altitude, clamp to bounds with margin 20, and
raise the one-shot fire flag when the timer expires with the player alive. -/
noncomputable def UFO.update (u : UFOState) (deltaTime : ℝ) (player : PlayerView)
    (terrain : TerrainView) : UFOState :=
  if u.alive = false then u
  else
    let shootTimer := u.shootTimer - deltaTime
    let rotation := u.rotation + deltaTime * 0.3
    let moveAngle := u.moveAngle + deltaTime * 0.1
    let bobPhase := u.bobPhase + deltaTime * 1.5
    let moveX := Real.cos moveAngle
    let moveZ := Real.sin moveAngle
    let pos1 : Vec3 ℝ := ⟨u.position.x + moveX * u.speed * deltaTime,
      12 + Real.sin bobPhase * 2,
      u.position.z + moveZ * u.speed * deltaTime⟩
    let position := Terrain.clampToBounds terrain.bounds pos1 20
    let fire := player.alive = true ∧ shootTimer ≤ 0
    { u with
      position := position
      rotation := rotation
      moveAngle := moveAngle
      bobPhase := bobPhase
      shootTimer := if fire then u.shootCooldown else shootTimer
      shouldShoot := if fire then true else u.shouldShoot }

/-- Number of 5-unit sampling steps of EnemyTank.checkLineOfSight:
Math.ceil(planar distance / 5). -/
noncomputable def EnemyTank.losSteps (selfPos targetPos : Vec3 ℝ) : ℕ :=
  let dx := targetPos.x - selfPos.x
  let dz := targetPos.z - selfPos.z
  Nat.ceil (Real.sqrt (dx * dx + dz * dz) / 5)

/-- Sample i of the line-of-sight walk falls inside mountain m's radius
(8 · scale). -/
noncomputable def EnemyTank.losBlockedAt (selfPos targetPos : Vec3 ℝ)
    (m : Mountain) (i : ℕ) : Prop :=
  let dx := targetPos.x - selfPos.x
  let dz := targetPos.z - selfPos.z
  let steps := EnemyTank.losSteps selfPos targetPos
  let t : ℝ := (i : ℝ) / (steps : ℝ)
  let checkX := selfPos.x + dx * t
  let checkZ := selfPos.z + dz * t
  let mdx := checkX - m.position.x
  let mdz := checkZ - m.position.z
  Real.sqrt (mdx * mdx + mdz * mdz) < 8 * m.scale

/-- EnemyTank.checkLineOfSight: true when no strictly interior sample
(i = 1 .. steps-1) of the segment to the target falls inside any mountain's
radius. -/
noncomputable def EnemyTank.checkLineOfSight (selfPos targetPos : Vec3 ℝ)
    (terrain : TerrainView) : Prop :=
  ∀ i ∈ List.range' 1 (EnemyTank.losSteps selfPos targetPos - 1),
    ∀ m ∈ terrain.mountains, ¬ EnemyTank.losBlockedAt selfPos targetPos m i

/-- The enemy tank AI's discrete state. -/
inductive AIState where
  | wander
  | pursue
  | shoot
deriving DecidableEq, Repr

/-- The AI-relevant mutable state of an enemy tank. -/
structure EnemyTankState where
  position : Vec3 ℝ
  rotation : ℝ
  targetRotation : ℝ
  moveTimer : ℝ
  moveDuration : ℝ
  state : AIState
  playerBias : ℝ
  shootTimer : ℝ
  shootCooldown : ℝ
  shouldShoot : Bool
  hasLineOfSight : Prop

/-- EnemyTank.updateAI: fall back to wander while the player is dead, refresh
the stored line-of-sight flag, re-roll the travel direction when the move
timer expires (biased toward the player by min(0.9, bias + level·0.05)), and
when the shoot cooldown has expired turn to the player and - only when the
angular error is below 0.3 rad and the line of sight is clear - enter the
shoot state, raise the one-shot fire flag and reset the cooldown to
max(1, cooldown - level·0.2). The Math.random()/Utils.random samples drawn in
the body are the arguments rBias, rJitter, rDir, rDur. -/
noncomputable def EnemyTank.updateAI (s : EnemyTankState) (player : PlayerView)
    (level : ℝ) (terrain : Option TerrainView)
    (rBias rJitter rDir rDur : ℝ) : EnemyTankState :=
  let s0 := if player.alive = false then { s with state := AIState.wander } else s
  let levelBias := min 0.9 (s.playerBias + level * 0.05)
  let shootInterval := max 1 (s.shootCooldown - level * 0.2)
  let hasLOS : Prop :=
    match terrain with
    | some ter =>
      if player.alive = true then EnemyTank.checkLineOfSight s.position player.position ter
      else True
    | none => True
  let s1 := { s0 with hasLineOfSight := hasLOS }
  let s2 :=
    if s.moveDuration ≤ s.moveTimer then
      if player.alive = true ∧ rBias < levelBias then
        { s1 with
          moveTimer := 0
          moveDuration := Utils.random rDur 2 5
          targetRotation := Math.atan2 (player.position.x - s.position.x)
              (player.position.z - s.position.z) + Utils.random rJitter (-0.5) 0.5
          state := AIState.pursue }
      else
        { s1 with
          moveTimer := 0
          moveDuration := Utils.random rDur 2 5
          targetRotation := rDir * π * 2
          state := AIState.wander }
    else s1
  if player.alive = true ∧ s.shootTimer ≤ 0 then
    let angleToPlayer := Math.atan2 (player.position.x - s.position.x)
      (player.position.z - s.position.z)
    let angleDiff := |Utils.normalizeAngle (angleToPlayer - s.rotation)|
    let s3 := { s2 with targetRotation := angleToPlayer }
    if angleDiff < 0.3 then
      if hasLOS then
        { s3 with
          state := AIState.shoot
          shouldShoot := true
          shootTimer := shootInterval }
      else s3
    else s3
  else s2

/-- Coefficient a of the ray-sphere quadratic: direction · direction. -/
def Collision.raySphereA (direction : Vec3 ℝ) : ℝ :=
  direction.x * direction.x + direction.y * direction.y + direction.z * direction.z

/-- Coefficient b of the ray-sphere quadratic: 2 · (oc · direction). -/
def Collision.raySphereB (origin direction center : Vec3 ℝ) : ℝ :=
  2 * ((origin.x - center.x) * direction.x + (origin.y - center.y) * direction.y +
    (origin.z - center.z) * direction.z)

/-- Coefficient c of the ray-sphere quadratic: oc · oc - radius². -/
def Collision.raySphereC (origin center : Vec3 ℝ) (radius : ℝ) : ℝ :=
  (origin.x - center.x) * (origin.x - center.x) +
    (origin.y - center.y) * (origin.y - center.y) +
    (origin.z - center.z) * (origin.z - center.z) - radius * radius

/-- A ray intersection result: parameter t and the hit point. -/
structure HitResult where
  t : ℝ
  point : Vec3 ℝ

/-- Collision.rayVsSphere: solve the quadratic; none when the discriminant is
negative or when the root t = (-b - √disc)/(2a) is negative; otherwise that
root with the point at parameter t. -/
noncomputable def Collision.rayVsSphere (origin direction center : Vec3 ℝ)
    (radius : ℝ) : Option HitResult :=
  let a := Collision.raySphereA direction
  let b := Collision.raySphereB origin direction center
  let c := Collision.raySphereC origin center radius
  let discriminant := b * b - 4 * a * c
  if discriminant < 0 then none
  else
    let t := (-b - Real.sqrt discriminant) / (2 * a)
    if t < 0 then none
    else some ⟨t, ⟨origin.x + direction.x * t, origin.y + direction.y * t,
      origin.z + direction.z * t⟩⟩
theorem Utils.normAngleDown_le (angle : ℝ) : Utils.normAngleDown angle ≤ π := by
  unfold Utils.normAngleDown
  split
  · exact Utils.normAngleDown_le (angle - 2 * π)
  · linarith [not_lt.mp (by assumption : ¬ π < angle)]
termination_by Nat.ceil ((angle - π) / (2 * π))
decreasing_by
  have hπ : (0:ℝ) < 2 * π := by positivity
  have harg : (angle - 2 * π - π) / (2 * π) = (angle - π) / (2 * π) - 1 := by
    field_simp
    ring
  have hpos : 0 < (angle - π) / (2 * π) := div_pos (by linarith) hπ
  have h1 : 1 ≤ Nat.ceil ((angle - π) / (2 * π)) := Nat.ceil_pos.mpr hpos
  have h2 : Nat.ceil ((angle - π) / (2 * π) - 1) ≤ Nat.ceil ((angle - π) / (2 * π)) - 1 := by
    apply Nat.ceil_le.mpr
    have hc := Nat.le_ceil ((angle - π) / (2 * π))
    have : ((Nat.ceil ((angle - π) / (2 * π)) - 1 : ℕ) : ℝ)
        = (Nat.ceil ((angle - π) / (2 * π)) : ℝ) - 1 := by
      push_cast [Nat.cast_sub h1]
      ring
    rw [this]
    linarith
  calc Nat.ceil ((angle - 2 * π - π) / (2 * π))
      = Nat.ceil ((angle - π) / (2 * π) - 1) := by rw [harg]
    _ ≤ Nat.ceil ((angle - π) / (2 * π)) - 1 := h2
    _ < Nat.ceil ((angle - π) / (2 * π)) := Nat.sub_lt (Nat.ceil_pos.mpr hpos) one_pos

theorem Utils.normAngleUp_mem (angle : ℝ) (h : angle ≤ π) :
    Utils.normAngleUp angle ∈ Set.Icc (-π) π := by
  unfold Utils.normAngleUp
  split
  · have hlt : angle < -π := by assumption
    have hπ : (0:ℝ) < π := Real.pi_pos
    exact Utils.normAngleUp_mem (angle + 2 * π) (by linarith)
  · exact ⟨not_lt.mp (by assumption), h⟩
termination_by Nat.ceil ((-π - angle) / (2 * π))
decreasing_by
  have hπ : (0:ℝ) < 2 * π := by positivity
  have harg : (-π - (angle + 2 * π)) / (2 * π) = (-π - angle) / (2 * π) - 1 := by
    field_simp
    ring
  have hpos : 0 < (-π - angle) / (2 * π) := div_pos (by linarith) hπ
  have h1 : 1 ≤ Nat.ceil ((-π - angle) / (2 * π)) := Nat.ceil_pos.mpr hpos
  have h2 : Nat.ceil ((-π - angle) / (2 * π) - 1) ≤ Nat.ceil ((-π - angle) / (2 * π)) - 1 := by
    apply Nat.ceil_le.mpr
    have hc := Nat.le_ceil ((-π - angle) / (2 * π))
    have : ((Nat.ceil ((-π - angle) / (2 * π)) - 1 : ℕ) : ℝ)
        = (Nat.ceil ((-π - angle) / (2 * π)) : ℝ) - 1 := by
      push_cast [Nat.cast_sub h1]
      ring
    rw [this]
    linarith
  calc Nat.ceil ((-π - (angle + 2 * π)) / (2 * π))
      = Nat.ceil ((-π - angle) / (2 * π) - 1) := by rw [harg]
    _ ≤ Nat.ceil ((-π - angle) / (2 * π)) - 1 := h2
    _ < Nat.ceil ((-π - angle) / (2 * π)) := Nat.sub_lt (Nat.ceil_pos.mpr hpos) one_pos

theorem Utils.normalizeAngle_mem (angle : ℝ) :
    Utils.normalizeAngle angle ∈ Set.Icc (-π) π :=
  Utils.normAngleUp_mem _ (Utils.normAngleDown_le angle)

theorem Utils.normalizeAngle_eq_self (angle : ℝ) (h₁ : -π ≤ angle) (h₂ : angle ≤ π) :
    Utils.normalizeAngle angle = angle := by
  unfold Utils.normalizeAngle
  rw [Utils.normAngleDown, if_neg (not_lt.mpr h₂),
    Utils.normAngleUp, if_neg (not_lt.mpr h₁)]


/-- C10: with a null target updateGuidedMissile leaves the missile untouched;
only a present dead target degrades to straight constant-velocity flight,
which changes the position by velocity·dt and nothing else. -/
theorem C10_guided_missile_null_target :
    (∀ (missile : MissileState) (deltaTime : ℝ),
      PhysicsEngine.updateGuidedMissile missile none deltaTime = missile) ∧
    (∀ (missile : MissileState) (tg : TargetState) (deltaTime : ℝ),
      tg.alive = false →
        PhysicsEngine.updateGuidedMissile missile (some tg) deltaTime
          = PhysicsEngine.updateStraightProjectile missile deltaTime) ∧
    (∀ (missile : MissileState) (deltaTime : ℝ),
      (PhysicsEngine.updateStraightProjectile missile deltaTime).velocity
          = missile.velocity ∧
      (PhysicsEngine.updateStraightProjectile missile deltaTime).rotation
          = missile.rotation ∧
      (PhysicsEngine.updateStraightProjectile missile deltaTime).position
          = ⟨missile.position.x + missile.velocity.x * deltaTime,
            missile.position.y + missile.velocity.y * deltaTime,
            missile.position.z + missile.velocity.z * deltaTime⟩) := by
  refine ⟨fun m dt => rfl, fun m tg dt h => ?_, fun m dt => ⟨rfl, rfl, rfl⟩⟩
  simp [PhysicsEngine.updateGuidedMissile, h]

/-- C9: a target within 5 planar units produces at most one sampling step, so
the interior-sample loop of checkLineOfSight is empty and the check passes
regardless of the mountains. -/
theorem C9_short_range_line_of_sight (selfPos targetPos : Vec3 ℝ)
    (terrain : TerrainView)
    (h : Real.sqrt ((targetPos.x - selfPos.x) * (targetPos.x - selfPos.x) +
      (targetPos.z - selfPos.z) * (targetPos.z - selfPos.z)) ≤ 5) :
    EnemyTank.checkLineOfSight selfPos targetPos terrain := by
  have hsteps : EnemyTank.losSteps selfPos targetPos ≤ 1 := by
    unfold EnemyTank.losSteps
    apply Nat.ceil_le.mpr
    simp only [Nat.cast_one]
    rw [div_le_one (by norm_num)]
    simpa using h
  intro i hi
  have h0 : EnemyTank.losSteps selfPos targetPos - 1 = 0 := by omega
  rw [h0] at hi
  simp [List.range'] at hi

/-- Witness for C9: a target at planar distance exactly 5 with a mountain
squarely between the endpoints is still reported as visible. -/
theorem C9_witness :
    EnemyTank.checkLineOfSight ⟨0, 0, 0⟩ ⟨3, 0, 4⟩
      ⟨⟨-100, 100, -100, 100⟩, [⟨⟨1.2, 0, 1.6⟩, 1⟩]⟩ := by
  apply C9_short_range_line_of_sight
  norm_num
  rw [show (25:ℝ) = 5 ^ 2 by norm_num, Real.sqrt_sq (by norm_num)]

/-- C7: the projectile pool never exceeds maxProjectiles = 50; a create at
capacity drops exactly the oldest; 51 creations from empty leave the last 50;
and the particle pool behaves the same at its capacity 500. -/
theorem C7_pool_capacity :
    (∀ (α : Type) (pool : List α) (p : α),
      pool.length ≤ ProjectileManager.maxProjectiles →
        (ProjectileManager.createProjectile pool p).length
          ≤ ProjectileManager.maxProjectiles) ∧
    (∀ (α : Type) (pool : List α) (p : α),
      pool.length = ProjectileManager.maxProjectiles →
        ProjectileManager.createProjectile pool p = pool.drop 1 ++ [p]) ∧
    (∀ (α : Type) (ps : List α),
      ps.length = ProjectileManager.maxProjectiles + 1 →
        ps.foldl ProjectileManager.createProjectile [] = ps.drop 1) ∧
    (∀ (α : Type) (pool generated : List α),
      pool.length ≤ ParticleSystem.maxParticles →
        (ParticleSystem.emit pool generated).length ≤ ParticleSystem.maxParticles) ∧
    (∀ (α : Type) (pool : List α) (p : α),
      pool.length = ParticleSystem.maxParticles →
        ParticleSystem.pushParticle pool p = pool.drop 1 ++ [p]) := by
  have h50 : ProjectileManager.maxProjectiles = 50 := rfl
  have h500 : ParticleSystem.maxParticles = 500 := rfl
  have hcreate : ∀ (α : Type) (pool : List α) (p : α),
      pool.length ≤ 50 → (ProjectileManager.createProjectile pool p).length ≤ 50 := by
    intro α pool p h
    unfold ProjectileManager.createProjectile
    rw [h50]
    split
    · simp only [List.length_append, List.length_drop, List.length_singleton]
      omega
    · rename_i hc
      rw [not_le] at hc
      simp only [List.length_append, List.length_singleton]
      omega
  have hfold : ∀ (α : Type) (ps : List α), ps.length ≤ 50 →
      ps.foldl ProjectileManager.createProjectile [] = ps := by
    intro α ps
    induction ps using List.reverseRecOn with
    | nil => intro _; rfl
    | append_singleton qs p ih =>
      intro h
      simp only [List.length_append, List.length_singleton] at h
      rw [List.foldl_append, List.foldl_cons, List.foldl_nil, ih (by omega)]
      unfold ProjectileManager.createProjectile
      rw [h50, if_neg (by omega)]
  refine ⟨fun α pool p h => hcreate α pool p (h50 ▸ h), ?_, ?_, ?_, ?_⟩
  · intro α pool p h
    rw [h50] at h
    unfold ProjectileManager.createProjectile
    rw [h50, if_pos (by omega)]
  · intro α ps h
    rw [h50] at h
    induction ps using List.reverseRecOn with
    | nil => simp at h
    | append_singleton qs p _ =>
      simp only [List.length_append, List.length_singleton] at h
      rw [List.foldl_append, List.foldl_cons, List.foldl_nil, hfold α qs (by omega)]
      unfold ProjectileManager.createProjectile
      rw [h50, if_pos (by omega), List.drop_append_of_le_length (by omega)]
  · intro α pool generated
    rw [h500]
    unfold ParticleSystem.emit
    induction generated generalizing pool with
    | nil => intro h; simpa using h
    | cons q qs ih =>
      intro h
      rw [List.foldl_cons]
      apply ih
      unfold ParticleSystem.pushParticle
      rw [h500]
      split
      · simp only [List.length_append, List.length_drop, List.length_singleton]
        omega
      · rename_i hc
        rw [not_le] at hc
        simp only [List.length_append, List.length_singleton]
        omega
  · intro α pool p h
    rw [h500] at h
    unfold ParticleSystem.pushParticle
    rw [h500, if_pos (by omega)]

/-- A List.find? on a one-element list returns that element exactly when the
predicate holds of it. -/
theorem find?_singleton_eq_some {α : Type} (p : α → Bool) (a : α) :
    List.find? p [a] = some a ↔ p a = true := by
  cases hp : p a <;> simp [List.find?, hp]

/-- A List.find? on a one-element list returns none exactly when the predicate
fails of the element. -/
theorem find?_singleton_eq_none {α : Type} (p : α → Bool) (a : α) :
    List.find? p [a] = none ↔ p a = false := by
  cases hp : p a <;> simp [List.find?, hp]

/-- C2: checkObstacleCollision on a single obstacle hits exactly when the
probe is inside the radius-inflated footprint whose half-extent per horizontal
axis is the full size for a pyramid and half the size for a cube; in
particular a zero-radius probe at x-offset 3 hits a pyramid of size [4,6,4]
but misses a cube of the same size. -/
theorem C2_obstacle_footprint :
    (∀ (pos : Vec3 ℚ) (radius : ℚ) (o : Obstacle),
      Collision.checkObstacleCollision pos radius [o] = some o ↔
        (o.position.x - ((if o.type = ObstacleType.pyramid then o.size.x
            else o.size.x / 2) + radius) ≤ pos.x ∧
          pos.x ≤ o.position.x + ((if o.type = ObstacleType.pyramid then o.size.x
            else o.size.x / 2) + radius) ∧
          o.position.z - ((if o.type = ObstacleType.pyramid then o.size.z
            else o.size.z / 2) + radius) ≤ pos.z ∧
          pos.z ≤ o.position.z + ((if o.type = ObstacleType.pyramid then o.size.z
            else o.size.z / 2) + radius))) ∧
    (Collision.checkObstacleCollision ⟨3, 0, 0⟩ 0
        [⟨⟨0, 0, 0⟩, ObstacleType.pyramid, ⟨4, 6, 4⟩⟩]
      = some ⟨⟨0, 0, 0⟩, ObstacleType.pyramid, ⟨4, 6, 4⟩⟩) ∧
    (Collision.checkObstacleCollision ⟨3, 0, 0⟩ 0
        [⟨⟨0, 0, 0⟩, ObstacleType.cube, ⟨4, 6, 4⟩⟩]
      = none) := by
  have hgen : ∀ (pos : Vec3 ℚ) (radius : ℚ) (o : Obstacle),
      Collision.checkObstacleCollision pos radius [o] = some o ↔
        (o.position.x - ((if o.type = ObstacleType.pyramid then o.size.x
            else o.size.x / 2) + radius) ≤ pos.x ∧
          pos.x ≤ o.position.x + ((if o.type = ObstacleType.pyramid then o.size.x
            else o.size.x / 2) + radius) ∧
          o.position.z - ((if o.type = ObstacleType.pyramid then o.size.z
            else o.size.z / 2) + radius) ≤ pos.z ∧
          pos.z ≤ o.position.z + ((if o.type = ObstacleType.pyramid then o.size.z
            else o.size.z / 2) + radius)) := by
    intro pos radius o
    unfold Collision.checkObstacleCollision
    rw [find?_singleton_eq_some]
    cases o with
    | mk opos ty osize =>
      cases ty <;>
        simp only [decide_eq_true_eq, Bool.and_eq_true, reduceCtorEq,
          if_false, if_true] <;>
        constructor <;>
        · intro h
          refine ⟨by linarith [h.1], by linarith [h.2.1],
            by linarith [h.2.2.1], by linarith [h.2.2.2]⟩
  refine ⟨hgen, ?_, ?_⟩
  · rw [hgen]
    norm_num
  · rcases hr : Collision.checkObstacleCollision ⟨3, 0, 0⟩ 0
        [⟨⟨0, 0, 0⟩, ObstacleType.cube, ⟨4, 6, 4⟩⟩] with _ | b
    · rfl
    · exfalso
      have hb : b = ⟨⟨0, 0, 0⟩, ObstacleType.cube, ⟨4, 6, 4⟩⟩ := by
        unfold Collision.checkObstacleCollision at hr
        simpa using List.mem_of_find?_eq_some hr
      subst hb
      have := (hgen _ _ _).mp hr
      simp only [if_neg (show ¬ (ObstacleType.cube = ObstacleType.pyramid) by
        intro hc; cases hc)] at this
      norm_num at this

/-- C4 counterexample: checkProjectileCollision never consults the alive
flag, so a dead (alive=false), non-invulnerable entity still present in the
entity list is returned as a hit. -/
theorem C4_counterexample :
    Collision.checkProjectileCollision ⟨1, ⟨0, 1, 0⟩⟩
        [⟨7, ⟨0, 0, 0⟩, 1.5, 2, false, false⟩] none
      = some ⟨7, ⟨0, 0, 0⟩, 1.5, 2, false, false⟩ ∧
    (⟨7, ⟨0, 0, 0⟩, 1.5, 2, false, false⟩ : Entity).alive = false := by
  constructor
  · unfold Collision.checkProjectileCollision
    rw [find?_singleton_eq_some]
    norm_num [Collision.pointVsCircle, jsOrQ]
    exact fun hc => Option.noConfusion hc
  · rfl

/-- C4 amended: the projectile-entity collision check filters only on the
excluded owner id and the invulnerable flag - it is oblivious to the alive
flag (rewriting every entity's alive flag does not change which entity is
found) - and dead entities only leave the candidate set when the manager's
removeDeadEnemies pass filters them out. -/
theorem C4_amended :
    (∀ (projectile : ProjectileState) (entities : List Entity)
        (excludeId : Option ℕ) (modify : Entity → Bool),
      Collision.checkProjectileCollision projectile
          (entities.map fun e => { e with alive := modify e }) excludeId
        = (Collision.checkProjectileCollision projectile entities excludeId).map
            fun e => { e with alive := modify e }) ∧
    (∀ (projectile : ProjectileState) (entities : List Entity)
        (excludeId : Option ℕ) (e : Entity),
      Collision.checkProjectileCollision projectile entities excludeId = some e →
        excludeId ≠ some e.id ∧ e.invulnerable = false) ∧
    (∀ (enemies : List Entity) (e : Entity),
      e ∈ EnemyManager.removeDeadEnemies enemies ↔ e ∈ enemies ∧ e.alive = true) := by
  refine ⟨?_, ?_, ?_⟩
  · intro projectile entities excludeId modify
    unfold Collision.checkProjectileCollision
    rw [List.find?_map]
    rfl
  · intro projectile entities excludeId e h
    have hp := List.find?_some h
    simp only [Bool.and_eq_true, decide_eq_true_eq, Bool.not_eq_true'] at hp
    exact ⟨hp.1.1.1, hp.1.1.2⟩
  · intro enemies e
    unfold EnemyManager.removeDeadEnemies
    simp [List.mem_filter]

/-- A live UFO's update adds exactly deltaTime·0.3 to the stored rotation and
keeps the UFO alive. -/
theorem UFO.update_rotation (u : UFOState) (deltaTime : ℝ) (player : PlayerView)
    (terrain : TerrainView) (h : u.alive = true) :
    (UFO.update u deltaTime player terrain).rotation = u.rotation + deltaTime * 0.3 ∧
    (UFO.update u deltaTime player terrain).alive = true := by
  unfold UFO.update
  rw [if_neg (by simp [h])]
  exact ⟨rfl, h⟩

/-- Iterating a live UFO's update accumulates n·(deltaTime·0.3) of rotation. -/
theorem UFO.update_rotation_iterated (deltaTime : ℝ) (player : PlayerView)
    (terrain : TerrainView) :
    ∀ (n : ℕ) (u : UFOState), u.alive = true →
      ((fun v => UFO.update v deltaTime player terrain)^[n] u).rotation
          = u.rotation + n * (deltaTime * 0.3) ∧
      ((fun v => UFO.update v deltaTime player terrain)^[n] u).alive = true := by
  intro n
  induction n with
  | zero => intro u h; simp [h]
  | succ k ih =>
    intro u h
    obtain ⟨hr, ha⟩ := UFO.update_rotation u deltaTime player terrain h
    obtain ⟨ihr, iha⟩ := ih (UFO.update u deltaTime player terrain) ha
    simp only [Function.iterate_succ_apply]
    refine ⟨?_, iha⟩
    rw [ihr, hr]
    push_cast
    ring

/-- C3 counterexample: the UFO's stored rotation is never normalized. A live
UFO whose rotation 3.14 still lies in (-π, π] leaves the interval after one
0.1 s tick (3.17 > π), and 105 ticks from the spawn rotation 0 reach 3.15,
also outside (-π, π]. -/
theorem C3_counterexample :
    ((-π < (3.14:ℝ) ∧ (3.14:ℝ) ≤ π) ∧
      ¬ ((UFO.update ⟨⟨0, 12, 0⟩, 3.14, 0, 0, 5, 6, 4, true, false⟩ 0.1
          ⟨⟨0, 0, 0⟩, true⟩ ⟨⟨-100, 100, -100, 100⟩, []⟩).rotation ≤ π)) ∧
    ¬ (((fun v => UFO.update v 0.1 ⟨⟨0, 0, 0⟩, true⟩
          ⟨⟨-100, 100, -100, 100⟩, []⟩)^[105]
        ⟨⟨0, 12, 0⟩, 0, 0, 0, 5, 6, 4, true, false⟩).rotation ≤ π) := by
  have hlt := Real.pi_lt_d2
  have hgt := Real.pi_gt_d2
  refine ⟨⟨⟨by linarith [Real.pi_pos], le_of_lt hgt⟩, ?_⟩, ?_⟩
  · have h := (UFO.update_rotation ⟨⟨0, 12, 0⟩, 3.14, 0, 0, 5, 6, 4, true, false⟩ 0.1
      ⟨⟨0, 0, 0⟩, true⟩ ⟨⟨-100, 100, -100, 100⟩, []⟩ rfl).1
    rw [not_le, h]
    norm_num
    linarith
  · have h := (UFO.update_rotation_iterated 0.1 ⟨⟨0, 0, 0⟩, true⟩
      ⟨⟨-100, 100, -100, 100⟩, []⟩ 105
      ⟨⟨0, 12, 0⟩, 0, 0, 0, 5, 6, 4, true, false⟩ rfl).1
    rw [not_le, h]
    norm_num
    linarith

/-- C3 amended: every angle passed through Utils.normalizeAngle lands in the
closed interval [-π, π] (the value -π itself is attainable, so the half-open
interval of the claim must be closed), tank movement always leaves the
chassis rotation in [-π, π], but the UFO's rotation is incremented by 0.3·dt
per tick without any normalization, so it is not confined to (-π, π]. -/
theorem C3_amended :
    (∀ angle : ℝ,
      -π ≤ Utils.normalizeAngle angle ∧ Utils.normalizeAngle angle ≤ π) ∧
    (∀ (tank : TankState) (input : InputState) (deltaTime : ℝ) (config : MoveConfig),
      -π ≤ (PhysicsEngine.updateTankMovement tank input deltaTime config).rotation ∧
        (PhysicsEngine.updateTankMovement tank input deltaTime config).rotation ≤ π) ∧
    (∀ (u : UFOState) (deltaTime : ℝ) (player : PlayerView) (terrain : TerrainView),
      u.alive = true →
        (UFO.update u deltaTime player terrain).rotation
          = u.rotation + deltaTime * 0.3) := by
  refine ⟨?_, ?_, ?_⟩
  · intro a
    exact ⟨(Utils.normalizeAngle_mem a).1, (Utils.normalizeAngle_mem a).2⟩
  · intro tank input deltaTime config
    unfold PhysicsEngine.updateTankMovement
    exact ⟨(Utils.normalizeAngle_mem _).1, (Utils.normalizeAngle_mem _).2⟩
  · intro u deltaTime player terrain h
    exact (UFO.update_rotation u deltaTime player terrain h).1

/-- C6: whenever some interior line-of-sight sample between an enemy tank and
the player falls within a mountain's radius, updateAI leaves the one-shot
fire flag exactly as it was - the tank never sets it in that tick, whatever
the cooldown and angular alignment. -/
theorem C6_shoot_gating (s : EnemyTankState) (player : PlayerView) (level : ℝ)
    (ter : TerrainView) (rBias rJitter rDir rDur : ℝ)
    (halive : player.alive = true)
    (hblocked : ∃ i ∈ List.range' 1 (EnemyTank.losSteps s.position player.position - 1),
      ∃ m ∈ ter.mountains, EnemyTank.losBlockedAt s.position player.position m i) :
    (EnemyTank.updateAI s player level (some ter) rBias rJitter rDir rDur).shouldShoot
      = s.shouldShoot := by
  have hlos : ¬ EnemyTank.checkLineOfSight s.position player.position ter := by
    obtain ⟨i, hi, m, hm, hb⟩ := hblocked
    intro hclear
    exact hclear i hi m hm hb
  unfold EnemyTank.updateAI
  simp only [halive]
  split_ifs <;> simp_all

/-- Witness for C6: a tank at the origin, the player 20 units ahead, and a
mountain of scale 1 exactly at the midpoint: sample i=2 of 4 lands on the
mountain's center, so the tick leaves the fire flag false even though the
cooldown is expired and the tank faces the player exactly. -/
theorem C6_witness :
    (EnemyTank.updateAI
        ⟨⟨0, 0, 0⟩, 0, 0, 0, 3, AIState.wander, 0.4, 0, 5, false, True⟩
        ⟨⟨0, 0, 20⟩, true⟩ 1 (some ⟨⟨-100, 100, -100, 100⟩, [⟨⟨0, 0, 10⟩, 1⟩]⟩)
        0 0 0 0).shouldShoot = false := by
  have hsteps : EnemyTank.losSteps ⟨0, 0, 0⟩ ⟨0, 0, 20⟩ = 4 := by
    unfold EnemyTank.losSteps
    norm_num
    rw [show (400:ℝ) = 20 ^ 2 by norm_num, Real.sqrt_sq (by norm_num)]
    norm_num
  exact C6_shoot_gating _ _ _ _ _ _ _ _ rfl
    ⟨2, by rw [hsteps]; decide,
      ⟨⟨0, 0, 10⟩, 1⟩, by simp,
      by unfold EnemyTank.losBlockedAt; rw [hsteps]; norm_num⟩

/-- C8 counterexample: a ray starting at the center of a unit sphere. The
parameter t = 1 is a non-negative root of the ray-sphere quadratic (the exit
point), yet rayVsSphere returns none because it only inspects the smaller
root (-b - sqrt disc)/(2a) = -1. -/
theorem C8_counterexample :
    Collision.rayVsSphere ⟨0, 0, 0⟩ ⟨1, 0, 0⟩ ⟨0, 0, 0⟩ 1 = none ∧
    (0 ≤ (1:ℝ) ∧
      Collision.raySphereA ⟨1, 0, 0⟩ * (1 * 1) +
        Collision.raySphereB ⟨0, 0, 0⟩ ⟨1, 0, 0⟩ ⟨0, 0, 0⟩ * 1 +
        Collision.raySphereC ⟨0, 0, 0⟩ ⟨0, 0, 0⟩ 1 = 0) := by
  refine ⟨?_, by norm_num, ?_⟩
  · unfold Collision.rayVsSphere Collision.raySphereA Collision.raySphereB
      Collision.raySphereC
    norm_num
    rw [show (4:ℝ) = 2 ^ 2 by norm_num, Real.sqrt_sq (by norm_num)]
    norm_num
  · unfold Collision.raySphereA Collision.raySphereB Collision.raySphereC
    norm_num

/-- C8 amended: for a non-degenerate direction, rayVsSphere returns none
exactly when the discriminant is negative or the smaller quadratic root
(-b - sqrt disc)/(2a) is negative (so an origin inside the sphere yields
none even though the positive exit root exists); when it returns a hit, the
hit carries that non-negative smaller root, the hit point lies on the sphere,
and the root is a lower bound on every real root of the quadratic. -/
theorem C8_amended (origin direction center : Vec3 ℝ) (radius : ℝ)
    (ha : 0 < Collision.raySphereA direction) :
    (Collision.rayVsSphere origin direction center radius = none ↔
      (Collision.raySphereB origin direction center *
          Collision.raySphereB origin direction center -
          4 * Collision.raySphereA direction *
          Collision.raySphereC origin center radius < 0 ∨
        (-Collision.raySphereB origin direction center -
            Real.sqrt (Collision.raySphereB origin direction center *
              Collision.raySphereB origin direction center -
              4 * Collision.raySphereA direction *
              Collision.raySphereC origin center radius)) /
          (2 * Collision.raySphereA direction) < 0)) ∧
    (∀ hit : HitResult,
      Collision.rayVsSphere origin direction center radius = some hit →
        0 ≤ hit.t ∧
        (hit.point.x - center.x) * (hit.point.x - center.x) +
          (hit.point.y - center.y) * (hit.point.y - center.y) +
          (hit.point.z - center.z) * (hit.point.z - center.z) = radius * radius ∧
        (∀ t' : ℝ, Collision.raySphereA direction * (t' * t') +
            Collision.raySphereB origin direction center * t' +
            Collision.raySphereC origin center radius = 0 → hit.t ≤ t')) := by
  set a := Collision.raySphereA direction with hadef
  set b := Collision.raySphereB origin direction center with hbdef
  set c := Collision.raySphereC origin center radius with hcdef
  have h2a : (0:ℝ) < 2 * a := by linarith
  unfold Collision.rayVsSphere
  rw [← hadef, ← hbdef, ← hcdef]
  by_cases hd : b * b - 4 * a * c < 0
  · rw [if_pos hd]
    exact ⟨⟨fun _ => Or.inl hd, fun _ => rfl⟩, fun hit h => Option.noConfusion h⟩
  · rw [if_neg hd]
    have hs : Real.sqrt (b * b - 4 * a * c) * Real.sqrt (b * b - 4 * a * c)
        = b * b - 4 * a * c := Real.mul_self_sqrt (not_lt.mp hd)
    set s := Real.sqrt (b * b - 4 * a * c) with hsdef
    have hs0 : 0 ≤ s := Real.sqrt_nonneg _
    by_cases ht : (-b - s) / (2 * a) < 0
    · rw [if_pos ht]
      exact ⟨⟨fun _ => Or.inr ht, fun _ => rfl⟩, fun hit h => Option.noConfusion h⟩
    · rw [if_neg ht]
      constructor
      · constructor
        · intro h; exact Option.noConfusion h
        · rintro (h | h)
          · exact absurd h hd
          · exact absurd h ht
      · intro hit heq
        obtain rfl : (⟨(-b - s) / (2 * a),
            ⟨origin.x + direction.x * ((-b - s) / (2 * a)),
              origin.y + direction.y * ((-b - s) / (2 * a)),
              origin.z + direction.z * ((-b - s) / (2 * a))⟩⟩ : HitResult) = hit :=
          Option.some.inj heq
        have hroot : a * (((-b - s) / (2 * a)) * ((-b - s) / (2 * a))) +
            b * ((-b - s) / (2 * a)) + c = 0 := by
          field_simp
          linear_combination (2 * a ^ 2) * hs
        refine ⟨not_lt.mp ht, ?_, ?_⟩
        · have hexp : (origin.x + direction.x * ((-b - s) / (2 * a)) - center.x) *
              (origin.x + direction.x * ((-b - s) / (2 * a)) - center.x) +
              (origin.y + direction.y * ((-b - s) / (2 * a)) - center.y) *
              (origin.y + direction.y * ((-b - s) / (2 * a)) - center.y) +
              (origin.z + direction.z * ((-b - s) / (2 * a)) - center.z) *
              (origin.z + direction.z * ((-b - s) / (2 * a)) - center.z)
              = a * (((-b - s) / (2 * a)) * ((-b - s) / (2 * a))) +
                b * ((-b - s) / (2 * a)) + (c + radius * radius) := by
            rw [hadef, hbdef, hcdef]
            unfold Collision.raySphereA Collision.raySphereB Collision.raySphereC
            ring
          rw [hexp, ← add_assoc, hroot, zero_add]
        · intro t' hroot'
          have hsq : (2 * a * t' + b - s) * (2 * a * t' + b + s) = 0 := by
            linear_combination 4 * a * hroot' - hs
          rcases mul_eq_zero.mp hsq with hcase | hcase
          · have h2at : 2 * a * t' = s - b := by linarith
            rw [div_le_iff₀ h2a]
            linarith
          · have h2at : 2 * a * t' = -s - b := by linarith
            rw [div_le_iff₀ h2a]
            linarith

/-- Witness for C8 amended: a ray from (0,0,3) toward the origin against the
unit sphere at the origin, whose direction has positive squared length. -/
theorem C8_witness :
    (Collision.rayVsSphere ⟨0, 0, 3⟩ ⟨0, 0, -1⟩ ⟨0, 0, 0⟩ 1 = none ↔
      (Collision.raySphereB ⟨0, 0, 3⟩ ⟨0, 0, -1⟩ ⟨0, 0, 0⟩ *
          Collision.raySphereB ⟨0, 0, 3⟩ ⟨0, 0, -1⟩ ⟨0, 0, 0⟩ -
          4 * Collision.raySphereA ⟨0, 0, -1⟩ *
          Collision.raySphereC ⟨0, 0, 3⟩ ⟨0, 0, 0⟩ 1 < 0 ∨
        (-Collision.raySphereB ⟨0, 0, 3⟩ ⟨0, 0, -1⟩ ⟨0, 0, 0⟩ -
            Real.sqrt (Collision.raySphereB ⟨0, 0, 3⟩ ⟨0, 0, -1⟩ ⟨0, 0, 0⟩ *
              Collision.raySphereB ⟨0, 0, 3⟩ ⟨0, 0, -1⟩ ⟨0, 0, 0⟩ -
              4 * Collision.raySphereA ⟨0, 0, -1⟩ *
              Collision.raySphereC ⟨0, 0, 3⟩ ⟨0, 0, 0⟩ 1)) /
          (2 * Collision.raySphereA ⟨0, 0, -1⟩) < 0)) ∧
    (∀ hit : HitResult,
      Collision.rayVsSphere ⟨0, 0, 3⟩ ⟨0, 0, -1⟩ ⟨0, 0, 0⟩ 1 = some hit →
        0 ≤ hit.t ∧
        (hit.point.x - (0:ℝ)) * (hit.point.x - 0) +
          (hit.point.y - 0) * (hit.point.y - 0) +
          (hit.point.z - 0) * (hit.point.z - 0) = 1 * 1 ∧
        (∀ t' : ℝ, Collision.raySphereA ⟨0, 0, -1⟩ * (t' * t') +
            Collision.raySphereB ⟨0, 0, 3⟩ ⟨0, 0, -1⟩ ⟨0, 0, 0⟩ * t' +
            Collision.raySphereC ⟨0, 0, 3⟩ ⟨0, 0, 0⟩ 1 = 0 → hit.t ≤ t')) :=
  C8_amended ⟨0, 0, 3⟩ ⟨0, 0, -1⟩ ⟨0, 0, 0⟩ 1 (by norm_num [Collision.raySphereA])

theorem Math.atan2_pos_x (y x : ℝ) (hx : 0 < x) :
    Math.atan2 y x = Real.arctan (y / x) := by
  unfold Math.atan2
  rw [if_pos hx]

theorem calculateBallisticShot_hits_target (origin target : Vec3 ℝ) (speed : ℝ)
    (hspeed : 0 < speed)
    (hhd : 0 < Real.sqrt ((target.x - origin.x) * (target.x - origin.x) +
      (target.z - origin.z) * (target.z - origin.z)))
    (hdisc : 0 ≤ PhysicsEngine.ballisticDiscriminant origin target speed) :
    ∃ t : ℝ, 0 < t ∧
      origin.x + (PhysicsEngine.calculateBallisticShot origin target speed).x * t
        = target.x ∧
      origin.z + (PhysicsEngine.calculateBallisticShot origin target speed).z * t
        = target.z ∧
      origin.y + (PhysicsEngine.calculateBallisticShot origin target speed).y * t
        - |PhysicsEngine.gravity| / 2 * (t * t) = target.y := by
  have hg : |PhysicsEngine.gravity| = 9.8 := by
    norm_num [PhysicsEngine.gravity]
  unfold PhysicsEngine.calculateBallisticShot
  simp only []
  rw [if_neg (not_lt.mpr hdisc), hg]
  set dx := target.x - origin.x with hdxdef
  set dy := target.y - origin.y with hdydef
  set dz := target.z - origin.z with hdzdef
  set hd := Real.sqrt (dx * dx + dz * dz) with hhddef
  set s := Real.sqrt (PhysicsEngine.ballisticDiscriminant origin target speed) with hsdef
  have hdisc_eq : PhysicsEngine.ballisticDiscriminant origin target speed
      = speed * speed * (speed * speed)
        - 9.8 * (9.8 * hd * hd + 2 * dy * (speed * speed)) := by
    unfold PhysicsEngine.ballisticDiscriminant
    simp only []
    rw [hg]
  have hs2 : s * s = speed * speed * (speed * speed)
      - 9.8 * (9.8 * hd * hd + 2 * dy * (speed * speed)) := by
    rw [hsdef, Real.mul_self_sqrt hdisc, hdisc_eq]
  have hs0 : 0 ≤ s := Real.sqrt_nonneg _
  rw [Math.atan2_pos_x _ _ (mul_pos (by norm_num) hhd)]
  set w := (speed * speed - s) / (9.8 * hd) with hwdef
  rw [Real.cos_arctan, Real.sin_arctan]
  set q := Real.sqrt (1 + w ^ 2) with hqdef
  have hq : 0 < q := Real.sqrt_pos.mpr (by positivity)
  have hq2 : q * q = 1 + w ^ 2 := Real.mul_self_sqrt (by positivity)
  refine ⟨hd * q / speed, by positivity, ?_, ?_, ?_⟩
  · have hx : dx / hd * (speed * (1 / q)) * (hd * q / speed) = dx := by
      field_simp
    rw [hx, hdxdef]
    ring
  · have hz : dz / hd * (speed * (1 / q)) * (hd * q / speed) = dz := by
      field_simp
    rw [hz, hdzdef]
    ring
  · have hy : speed * (w / q) * (hd * q / speed)
        - 9.8 / 2 * (hd * q / speed * (hd * q / speed)) = dy := by
      have h1 : speed * (w / q) * (hd * q / speed) = w * hd := by
        field_simp
        ring
      have h2 : hd * q / speed * (hd * q / speed)
          = hd * hd * (1 + w ^ 2) / (speed * speed) := by
        rw [← hq2]
        field_simp
        ring
      rw [h1, h2, hwdef]
      field_simp
      linear_combination (-(2401 / 25) * hd ^ 3) * hs2
    calc origin.y + speed * (w / q) * (hd * q / speed)
        - 9.8 / 2 * (hd * q / speed * (hd * q / speed))
        = origin.y + (speed * (w / q) * (hd * q / speed)
          - 9.8 / 2 * (hd * q / speed * (hd * q / speed))) := by ring
      _ = origin.y + dy := by rw [hy]
      _ = target.y := by rw [hdydef]; ring

/-- C1: evidence for calculateBallisticShot. The unreachable target [50,0,0]
at speed 10 has negative discriminant and returns the straight-line fallback
[10, 5, 0] with strictly positive vertical component; any negative
discriminant returns the unit direction to the target scaled by speed with
the fixed +5 vertical bias; any non-negative discriminant with positive
horizontal distance launches on a parabola through the target (the range
equation at gravity 9.8); and the reachable target [10,0,0] at speed 30 has
non-negative discriminant and positive horizontal and vertical components. -/
theorem C1_calculateBallisticShot :
    (PhysicsEngine.ballisticDiscriminant ⟨0, 0, 0⟩ ⟨50, 0, 0⟩ 10 < 0 ∧
      PhysicsEngine.calculateBallisticShot ⟨0, 0, 0⟩ ⟨50, 0, 0⟩ 10 = ⟨10, 5, 0⟩ ∧
      0 < (PhysicsEngine.calculateBallisticShot ⟨0, 0, 0⟩ ⟨50, 0, 0⟩ 10).y) ∧
    (∀ (origin target : Vec3 ℝ) (speed : ℝ),
      PhysicsEngine.ballisticDiscriminant origin target speed < 0 →
        PhysicsEngine.calculateBallisticShot origin target speed =
          ⟨(target.x - origin.x) /
              Real.sqrt ((target.x - origin.x) * (target.x - origin.x) +
                (target.y - origin.y) * (target.y - origin.y) +
                (target.z - origin.z) * (target.z - origin.z)) * speed,
            (target.y - origin.y) /
              Real.sqrt ((target.x - origin.x) * (target.x - origin.x) +
                (target.y - origin.y) * (target.y - origin.y) +
                (target.z - origin.z) * (target.z - origin.z)) * speed + 5,
            (target.z - origin.z) /
              Real.sqrt ((target.x - origin.x) * (target.x - origin.x) +
                (target.y - origin.y) * (target.y - origin.y) +
                (target.z - origin.z) * (target.z - origin.z)) * speed⟩) ∧
    (∀ (origin target : Vec3 ℝ) (speed : ℝ),
      0 < speed →
      0 < Real.sqrt ((target.x - origin.x) * (target.x - origin.x) +
          (target.z - origin.z) * (target.z - origin.z)) →
      0 ≤ PhysicsEngine.ballisticDiscriminant origin target speed →
      ∃ t : ℝ, 0 < t ∧
        origin.x + (PhysicsEngine.calculateBallisticShot origin target speed).x * t
          = target.x ∧
        origin.z + (PhysicsEngine.calculateBallisticShot origin target speed).z * t
          = target.z ∧
        origin.y + (PhysicsEngine.calculateBallisticShot origin target speed).y * t
          - |PhysicsEngine.gravity| / 2 * (t * t) = target.y) ∧
    (0 ≤ PhysicsEngine.ballisticDiscriminant ⟨0, 0, 0⟩ ⟨10, 0, 0⟩ 30 ∧
      0 < (PhysicsEngine.calculateBallisticShot ⟨0, 0, 0⟩ ⟨10, 0, 0⟩ 30).x ∧
      0 < (PhysicsEngine.calculateBallisticShot ⟨0, 0, 0⟩ ⟨10, 0, 0⟩ 30).y) := by
  have hg : |PhysicsEngine.gravity| = 9.8 := by
    norm_num [PhysicsEngine.gravity]
  have hdisc50 : PhysicsEngine.ballisticDiscriminant ⟨0, 0, 0⟩ ⟨50, 0, 0⟩ 10 = -230100 := by
    unfold PhysicsEngine.ballisticDiscriminant
    simp only []
    rw [hg]
    rw [show ((50:ℝ) - 0) * (50 - 0) + (0 - 0) * (0 - 0) = 50 ^ 2 by norm_num,
      Real.sqrt_sq (by norm_num)]
    norm_num
  have hdisc10 : PhysicsEngine.ballisticDiscriminant ⟨0, 0, 0⟩ ⟨10, 0, 0⟩ 30 = 800396 := by
    unfold PhysicsEngine.ballisticDiscriminant
    simp only []
    rw [hg]
    rw [show ((10:ℝ) - 0) * (10 - 0) + (0 - 0) * (0 - 0) = 10 ^ 2 by norm_num,
      Real.sqrt_sq (by norm_num)]
    norm_num
  refine ⟨⟨by rw [hdisc50]; norm_num, ?_, ?_⟩, ?_, ?_, ⟨by rw [hdisc10]; norm_num, ?_, ?_⟩⟩
  · unfold PhysicsEngine.calculateBallisticShot
    simp only []
    rw [if_pos (by rw [hdisc50]; norm_num)]
    rw [show ((50:ℝ) - 0) * (50 - 0) + (0 - 0) * (0 - 0) + (0 - 0) * (0 - 0) = 50 ^ 2
        by norm_num,
      Real.sqrt_sq (by norm_num)]
    simp [Vec3.mk.injEq]
  · unfold PhysicsEngine.calculateBallisticShot
    simp only []
    rw [if_pos (by rw [hdisc50]; norm_num)]
    rw [show ((50:ℝ) - 0) * (50 - 0) + (0 - 0) * (0 - 0) + (0 - 0) * (0 - 0) = 50 ^ 2
        by norm_num,
      Real.sqrt_sq (by norm_num)]
    norm_num
  · intro origin target speed h
    unfold PhysicsEngine.calculateBallisticShot
    simp only []
    rw [if_pos h]
  · exact calculateBallisticShot_hits_target
  · have hshot : PhysicsEngine.calculateBallisticShot ⟨0, 0, 0⟩ ⟨10, 0, 0⟩ 30
        = ⟨(10 - 0) / 10 * (30 * Real.cos (Real.arctan ((30 * 30 -
              Real.sqrt 800396) / (9.8 * 10)))),
          30 * Real.sin (Real.arctan ((30 * 30 - Real.sqrt 800396) / (9.8 * 10))),
          (0 - 0) / 10 * (30 * Real.cos (Real.arctan ((30 * 30 -
              Real.sqrt 800396) / (9.8 * 10))))⟩ := by
      unfold PhysicsEngine.calculateBallisticShot
      simp only []
      rw [if_neg (by rw [hdisc10]; norm_num), hdisc10, hg]
      rw [show ((10:ℝ) - 0) * (10 - 0) + (0 - 0) * (0 - 0) = 10 ^ 2 by norm_num,
        Real.sqrt_sq (by norm_num)]
      rw [Math.atan2_pos_x _ _ (by norm_num)]
    have hw : 0 < (30 * 30 - Real.sqrt 800396) / (9.8 * 10) := by
      apply div_pos
      · have : Real.sqrt 800396 < 900 := by
          rw [show (900:ℝ) = Real.sqrt (900 ^ 2) from
            (Real.sqrt_sq (by norm_num)).symm]
          apply Real.sqrt_lt_sqrt (by norm_num)
          norm_num
        linarith
      · norm_num
    rw [hshot, Real.cos_arctan]
    positivity
  · have hshot : PhysicsEngine.calculateBallisticShot ⟨0, 0, 0⟩ ⟨10, 0, 0⟩ 30
        = ⟨(10 - 0) / 10 * (30 * Real.cos (Real.arctan ((30 * 30 -
              Real.sqrt 800396) / (9.8 * 10)))),
          30 * Real.sin (Real.arctan ((30 * 30 - Real.sqrt 800396) / (9.8 * 10))),
          (0 - 0) / 10 * (30 * Real.cos (Real.arctan ((30 * 30 -
              Real.sqrt 800396) / (9.8 * 10))))⟩ := by
      unfold PhysicsEngine.calculateBallisticShot
      simp only []
      rw [if_neg (by rw [hdisc10]; norm_num), hdisc10, hg]
      rw [show ((10:ℝ) - 0) * (10 - 0) + (0 - 0) * (0 - 0) = 10 ^ 2 by norm_num,
        Real.sqrt_sq (by norm_num)]
      rw [Math.atan2_pos_x _ _ (by norm_num)]
    have hw : 0 < (30 * 30 - Real.sqrt 800396) / (9.8 * 10) := by
      apply div_pos
      · have : Real.sqrt 800396 < 900 := by
          rw [show (900:ℝ) = Real.sqrt (900 ^ 2) from
            (Real.sqrt_sq (by norm_num)).symm]
          apply Real.sqrt_lt_sqrt (by norm_num)
          norm_num
        linarith
      · norm_num
    rw [hshot, Real.sin_arctan]
    have : 0 < Real.sqrt (1 + ((30 * 30 - Real.sqrt 800396) / (9.8 * 10)) ^ 2) := by
      positivity
    positivity

/-- C5 counterexample: with origin equal to target the horizontal distance is
zero, the discriminant is v⁴ ≥ 0, and the low-trajectory branch divides by
the zero horizontal distance: the checked embedding reports the division by
zero (the JS original would emit NaN components). -/
theorem C5_counterexample :
    PhysicsEngine.calculateBallisticShotChecked ⟨0, 0, 0⟩ ⟨0, 0, 0⟩ 10 = none := by
  have hdisc : PhysicsEngine.ballisticDiscriminant ⟨0, 0, 0⟩ ⟨0, 0, 0⟩ 10 = 10000 := by
    unfold PhysicsEngine.ballisticDiscriminant
    simp only []
    norm_num [PhysicsEngine.gravity, Real.sqrt_zero]
  unfold PhysicsEngine.calculateBallisticShotChecked
  simp only []
  rw [if_neg (by rw [hdisc]; norm_num)]
  rw [if_pos (by norm_num [Real.sqrt_zero])]

/-- C5 amended: the checked embedding of calculateBallisticShot hits a zero
division denominator exactly when the discriminant is non-negative and the
horizontal distance is zero (the straight-line fallback's length denominator
can never be zero, since origin = target forces a non-negative discriminant);
and wherever the checked function is defined, it agrees with
calculateBallisticShot. -/
theorem C5_amended :
    (∀ (origin target : Vec3 ℝ) (speed : ℝ),
      PhysicsEngine.calculateBallisticShotChecked origin target speed = none ↔
        (Real.sqrt ((target.x - origin.x) * (target.x - origin.x) +
            (target.z - origin.z) * (target.z - origin.z)) = 0 ∧
          0 ≤ PhysicsEngine.ballisticDiscriminant origin target speed)) ∧
    (∀ (origin target : Vec3 ℝ) (speed : ℝ) (v : Vec3 ℝ),
      PhysicsEngine.calculateBallisticShotChecked origin target speed = some v →
        PhysicsEngine.calculateBallisticShot origin target speed = v) := by
  constructor
  · intro origin target speed
    unfold PhysicsEngine.calculateBallisticShotChecked
    simp only []
    by_cases hdisc : PhysicsEngine.ballisticDiscriminant origin target speed < 0
    · rw [if_pos hdisc]
      by_cases hlen : Real.sqrt ((target.x - origin.x) * (target.x - origin.x) +
          (target.y - origin.y) * (target.y - origin.y) +
          (target.z - origin.z) * (target.z - origin.z)) = 0
      · exfalso
        have hsum : (target.x - origin.x) * (target.x - origin.x) +
            (target.y - origin.y) * (target.y - origin.y) +
            (target.z - origin.z) * (target.z - origin.z) ≤ 0 :=
          Real.sqrt_eq_zero'.mp hlen
        have hx : target.x - origin.x = 0 := by
          nlinarith [mul_self_nonneg (target.x - origin.x),
            mul_self_nonneg (target.y - origin.y), mul_self_nonneg (target.z - origin.z)]
        have hy : target.y - origin.y = 0 := by
          nlinarith [mul_self_nonneg (target.x - origin.x),
            mul_self_nonneg (target.y - origin.y), mul_self_nonneg (target.z - origin.z)]
        have hz : target.z - origin.z = 0 := by
          nlinarith [mul_self_nonneg (target.x - origin.x),
            mul_self_nonneg (target.y - origin.y), mul_self_nonneg (target.z - origin.z)]
        have : PhysicsEngine.ballisticDiscriminant origin target speed
            = speed * speed * (speed * speed) := by
          unfold PhysicsEngine.ballisticDiscriminant
          simp only []
          rw [hx, hy, hz]
          norm_num [Real.sqrt_zero, PhysicsEngine.gravity]
        nlinarith [mul_self_nonneg (speed * speed)]
      · rw [if_neg hlen]
        constructor
        · intro h; exact Option.noConfusion h
        · rintro ⟨-, hge⟩; linarith
    · rw [if_neg hdisc]
      by_cases hhd : Real.sqrt ((target.x - origin.x) * (target.x - origin.x) +
          (target.z - origin.z) * (target.z - origin.z)) = 0
      · rw [if_pos hhd]
        exact ⟨fun _ => ⟨hhd, not_lt.mp hdisc⟩, fun _ => rfl⟩
      · rw [if_neg hhd]
        constructor
        · intro h; exact Option.noConfusion h
        · rintro ⟨h0, -⟩; exact absurd h0 hhd
  · intro origin target speed v h
    unfold PhysicsEngine.calculateBallisticShotChecked at h
    unfold PhysicsEngine.calculateBallisticShot
    simp only [] at h ⊢
    by_cases hdisc : PhysicsEngine.ballisticDiscriminant origin target speed < 0
    · rw [if_pos hdisc] at h ⊢
      by_cases hlen : Real.sqrt ((target.x - origin.x) * (target.x - origin.x) +
          (target.y - origin.y) * (target.y - origin.y) +
          (target.z - origin.z) * (target.z - origin.z)) = 0
      · rw [if_pos hlen] at h
        exact Option.noConfusion h
      · rw [if_neg hlen] at h
        exact Option.some.inj h
    · rw [if_neg hdisc] at h ⊢
      by_cases hhd : Real.sqrt ((target.x - origin.x) * (target.x - origin.x) +
          (target.z - origin.z) * (target.z - origin.z)) = 0
      · rw [if_pos hhd] at h
        exact Option.noConfusion h
      · rw [if_neg hhd] at h
        exact Option.some.inj h
